import Mathlib

/-!
Shallow embedding of the core of `offline-scrobbler` (Rust), for checking its
natural-language specification.

Sources embedded:
* `src/scrobbler.rs` — the album timeline scheduler `scrobble_timeline` and the
  single-track path `scrobble_track`;
* `src/lastfmapi.rs` — the Last.fm protocol client: `compute_signature`,
  `parse_scrobble_response`, `parse_track`, `get_album_tracks`,
  `get_request_token`.

Modelling conventions:
* Rust `i64` arithmetic on seconds/durations is modelled by unbounded `Int`
  (no claim depends on 64-bit wrap-around); the one explicit narrowing cast in
  the source, `(album.tracks.len() - 1) as i16`, is modelled exactly by
  `i16_cast` (wrap-around into the range of a 16-bit two's-complement value).
* Rust `usize` subtraction `album.tracks.len() - 1` is an arithmetic overflow
  when the track list is empty; this overflow is modelled as a panic, i.e. the
  embedded function returns `none` there.
* Fallible Rust functions returning `Result<T, ApiError>` become
  `Except ApiError T`; a function that may additionally panic (an unguarded
  `unwrap`) returns `Option (Except ApiError T)`, with `none` for the panic.
* The HTTP transport and the raw-text XML/JSON parsers (`xmltree`,
  `serde_json`) are external crates; the embedding starts from their parsed
  output: an `XmlElement` tree, a `Json` value, or an `HttpResponse` whose
  `body_json` field is `none` exactly when the body is not valid JSON.
* The `HashMap` values iterated in sorted key order are modelled as
  association lists sorted with `List.mergeSort`; `str::parse::<i64>` is
  modelled directly over the character list, restricted to the `i64` range.
* Logging (`info!`, `warn!`, `debug!`, `error!`) is a side effect with no
  bearing on the returned values and is not modelled.
-/

/-- Error type `ApiError` from `src/lastfmapi.rs` (lines 20-30). `Generic` carries
transport/HTTP failures, `Json` unexpected JSON shapes, `Parse` unexpected
XML shapes, `Unscrobbled` the remote "ignored" outcome (also reused by the
source for the empty-album case). -/
inductive ApiError where
  | Generic (msg : String)
  | Json
  | Parse (msg : String)
  | Unscrobbled (reason : String)
deriving DecidableEq, Repr

/-- Data type `Track` from `src/lastfmapi.rs` (lines 32-36): title and duration in
seconds (`i64` in the source, unbounded here). -/
structure Track where
  title : String
  duration : Int
deriving DecidableEq, Repr

/-- Data type `Album` from `src/lastfmapi.rs` (lines 38-43). -/
structure Album where
  title : String
  tracks : List Track
  url : Option String
deriving DecidableEq, Repr

/-- The fixed inter-track gap `track_gap = 5.seconds()` of
`src/scrobbler.rs` line 21, in seconds. -/
def track_gap : Int := 5

/-- The Rust narrowing cast `(x : usize) as i16` for a nonnegative `x`:
truncation to 16 bits, reinterpreted as two's complement. -/
def i16_cast (x : Nat) : Int := (((x + 32768) % 65536 : Nat) : Int) - 32768

/-- The start-of-timeline instant of `src/scrobbler.rs` lines 23-24:
`now - Duration::new(album_len, 0) - ((album.tracks.len() - 1) as i16) * track_gap - offset`
where `album_len` is the sum of the track durations (line 20). The caller is
responsible for the `len() - 1` underflow check (see `scrobble_timeline`);
here `Nat` subtraction is used, which agrees with the source whenever the
track list is non-empty. -/
def album_start (album : Album) (now offset : Int) : Int :=
  now - (album.tracks.map Track.duration).sum
    - i16_cast (album.tracks.length - 1) * track_gap - offset

/-- The running-cursor timestamp assignment of `src/scrobbler.rs` lines 26-28:
before each track is scrobbled the cursor advances by
`Duration::new(track.duration, 0) + track_gap`, and the advanced cursor is the
track's assigned timestamp. Returns the assigned timestamps in track order. -/
def timeline_times : List Track → Int → List Int
  | [], _ => []
  | t :: ts, cur =>
    (cur + t.duration + track_gap) :: timeline_times ts (cur + t.duration + track_gap)

/-- The per-track submission loop of `src/scrobbler.rs` lines 26-47, with the
timestamp cursor, the `dryrun` check (line 37) and the `any_unscrobbled` flag
(lines 25, 39-44): `Ok` outcomes are skipped, an `Unscrobbled` error sets the
flag and the loop continues, any other error aborts the loop immediately.
The `api` argument abstracts `LastfmApi::scrobble` as a pure function of
`(artist, track title, timestamp)`. Returns the final flag, or the aborting
error. -/
def scrobble_loop (api : String → String → Int → Except ApiError Unit)
    (artist : String) (dryrun : Bool) :
    List Track → Int → Bool → Except ApiError Bool
  | [], _, anyUnscrobbled => .ok anyUnscrobbled
  | t :: ts, cur, anyUnscrobbled =>
    if dryrun then
      scrobble_loop api artist dryrun ts (cur + t.duration + track_gap) anyUnscrobbled
    else
      match api artist t.title (cur + t.duration + track_gap) with
      | .ok _ => scrobble_loop api artist dryrun ts (cur + t.duration + track_gap) anyUnscrobbled
      | .error (ApiError.Unscrobbled _) =>
          scrobble_loop api artist dryrun ts (cur + t.duration + track_gap) true
      | .error e => .error e

/-- The outcomes the `api` yields along the walk of `scrobble_loop` (same
cursor advance, same call arguments), in track order. -/
def loop_outcomes (api : String → String → Int → Except ApiError Unit)
    (artist : String) : List Track → Int → List (Except ApiError Unit)
  | [], _ => []
  | t :: ts, cur =>
    api artist t.title (cur + t.duration + track_gap) ::
      loop_outcomes api artist ts (cur + t.duration + track_gap)

/-- The error type of `scrobble_timeline`'s `anyhow::Result`: either a
converted `ApiError` (line 44, `Err(e.into())`) or the final
"Not all tracks scrobbled" failure (line 50). -/
inductive BatchError where
  | api_error (e : ApiError)
  | not_all_scrobbled
deriving DecidableEq, Repr

/-- Function `scrobble_timeline` from `src/scrobbler.rs` lines 12-54. Returns `none`
when `album.tracks.len() - 1` underflows (empty track list), otherwise the
batch result: the aborting `ApiError`, or `not_all_scrobbled` when at least
one track was ignored (lines 49-53), or success. -/
def scrobble_timeline (api : String → String → Int → Except ApiError Unit)
    (artist : String) (album : Album) (dryrun : Bool) (offset now : Int) :
    Option (Except BatchError Unit) :=
  match album.tracks.length with
  | 0 => none
  | Nat.succ _ =>
    match scrobble_loop api artist dryrun album.tracks (album_start album now offset) false with
    | .error e => some (.error (.api_error e))
    | .ok true => some (.error .not_all_scrobbled)
    | .ok false => some (.ok ())

/-- The assigned timestamps of one album-scrobble operation (the
`(track, timestamp)` plan implicit in `scrobble_timeline`): `none` when the
`len() - 1` subtraction underflows, otherwise the timestamps produced by the
cursor walk starting at `album_start`. -/
def plan_times (album : Album) (now offset : Int) : Option (List Int) :=
  match album.tracks.length with
  | 0 => none
  | Nat.succ _ => some (timeline_times album.tracks (album_start album now offset))

/-- Holds (`true`) exactly on the `Err(ApiError::Unscrobbled _)` outcome (the remote
"ignored" case, HTTP itself succeeded). -/
def is_ignored : Except ApiError Unit → Bool
  | .error (.Unscrobbled _) => true
  | _ => false

/-- Holds (`true`) on the outcomes that abort the batch: any error other than
`Unscrobbled` (transport `Generic`, JSON `Json`, XML `Parse`). -/
def is_hard_error : Except ApiError Unit → Bool
  | .error (.Unscrobbled _) => false
  | .error _ => true
  | .ok _ => false

/-- The outcome handling of `scrobble_track` from `src/scrobbler.rs`
lines 100-107: `Ok` stays `Ok`, `Err(ApiError::Unscrobbled _)` is logged and
turned into `Ok` (the single-track leniency), every other error propagates. -/
def scrobble_track_result (r : Except ApiError Unit) : Except ApiError Unit :=
  match r with
  | .ok _ => .ok ()
  | .error (ApiError.Unscrobbled _) => .ok ()
  | .error e => .error e

/-- A parsed XML element as produced by `xmltree::Element::parse`: tag name,
attribute map (modelled as an association list with unique keys), child
elements, and the concatenated inner text (`get_text`, `none` when the
element has no text children). -/
inductive XmlElement where
  | mk (name : String) (attributes : List (String × String))
       (children : List XmlElement) (text : Option String)

/-- Tag name of an element. -/
def XmlElement.name : XmlElement → String
  | .mk n _ _ _ => n

/-- Attribute map of an element. -/
def XmlElement.attributes : XmlElement → List (String × String)
  | .mk _ a _ _ => a

/-- Child elements of an element. -/
def XmlElement.children : XmlElement → List XmlElement
  | .mk _ _ c _ => c

/-- Inner text of an element (`Element::get_text`). -/
def XmlElement.text : XmlElement → Option String
  | .mk _ _ _ t => t

/-- Model of `Element::get_child(name)`: the first child with the given tag name. -/
def XmlElement.get_child (e : XmlElement) (n : String) : Option XmlElement :=
  e.children.find? (fun c => c.name == n)

/-- Model of `element.attributes.get(key)`: attribute lookup. -/
def XmlElement.attr (e : XmlElement) (k : String) : Option String :=
  List.lookup k e.attributes

/-- Accumulate a decimal value over a character list; `none` on the first
non-digit. -/
def parse_digits : List Char → Nat → Option Nat
  | [], acc => some acc
  | c :: cs, acc =>
    if '0'.toNat ≤ c.toNat ∧ c.toNat ≤ '9'.toNat then
      parse_digits cs (acc * 10 + (c.toNat - '0'.toNat))
    else none

/-- A non-empty all-digit character list as a decimal number. -/
def parse_unsigned : List Char → Option Nat
  | [] => none
  | cs => parse_digits cs 0

/-- Model of `str::parse::<i64>` (as used on XML attribute values): an optional sign
followed by at least one ASCII digit, rejecting values outside the `i64`
range. -/
def parse_i64 (s : String) : Option Int :=
  match s.data with
  | '-' :: cs => (parse_unsigned cs).bind fun n =>
      if (n : Int) ≤ 2 ^ 63 then some (-(n : Int)) else none
  | '+' :: cs => (parse_unsigned cs).bind fun n =>
      if (n : Int) < 2 ^ 63 then some ((n : Int)) else none
  | cs => (parse_unsigned cs).bind fun n =>
      if (n : Int) < 2 ^ 63 then some ((n : Int)) else none

/-- Function `LastfmApi::parse_scrobble_response` from `src/lastfmapi.rs`
lines 178-218, starting from the already-parsed root element. Returns `none`
exactly when the unguarded `elem_message.attributes.get("code").unwrap()` on
line 208 panics (the `ignoredMessage` element has no `code` attribute);
otherwise `some` of the source's `Result`. -/
def parse_scrobble_response (elem_root : XmlElement) : Option (Except ApiError Unit) :=
  match elem_root.get_child "scrobbles" with
  | none => some (.error (.Parse "xml scrobbles key"))
  | some elem_scrobbles =>
    match elem_scrobbles.attr "accepted" with
    | none => some (.error (.Parse "no acccepted attr"))
    | some accepted_str =>
      match parse_i64 accepted_str with
      | none => some (.error (.Parse "integer"))
      | some accepted_count =>
        match elem_scrobbles.attr "ignored" with
        | none => some (.error (.Parse "no ignored attr"))
        | some ignored_str =>
          match parse_i64 ignored_str with
          | none => some (.error (.Parse "integer"))
          | some ignored_count =>
            if accepted_count = 1 ∧ ignored_count = 0 then
              some (.ok ())
            else if accepted_count = 0 ∧ ignored_count = 1 then
              match elem_scrobbles.get_child "scrobble" with
              | none => some (.error (.Parse "xml tag scrobble"))
              | some elem_scrobble =>
                match elem_scrobble.get_child "ignoredMessage" with
                | none => some (.error (.Parse "xml tag ignoredMessage"))
                | some elem_message =>
                  match elem_message.attr "code" with
                  | none => none
                  | some reason_code =>
                    some (.error (.Unscrobbled
                      (reason_code ++ ": " ++ elem_message.text.getD "")))
            else
              some (.error (.Parse "Wrong response structure"))

/-- A parsed JSON value as produced by `serde_json` (floating-point numbers
are not needed by any embedded code path and are omitted; `num` carries an
unbounded integer, with the `i64` range enforced in `Json.as_i64`). -/
inductive Json where
  | null
  | bool (b : Bool)
  | num (n : Int)
  | str (s : String)
  | arr (items : List Json)
  | obj (fields : List (String × Json))

/-- Model of `Value::as_object`. -/
def Json.as_object : Json → Option (List (String × Json))
  | .obj fields => some fields
  | _ => none

/-- Model of `Value::get(key)` (object field lookup; `none` on non-objects). -/
def Json.get (j : Json) (k : String) : Option Json :=
  match j with
  | .obj fields => List.lookup k fields
  | _ => none

/-- Model of `Value::as_str`. -/
def Json.as_str : Json → Option String
  | .str s => some s
  | _ => none

/-- Model of `Value::as_i64`: the integer when it fits in an `i64`. -/
def Json.as_i64 : Json → Option Int
  | .num n => if -(2 ^ 63) ≤ n ∧ n < 2 ^ 63 then some n else none
  | _ => none

/-- Model of `Value::as_array`. -/
def Json.as_array : Json → Option (List Json)
  | .arr items => some items
  | _ => none

/-- Function `LastfmApi::parse_track` from `src/lastfmapi.rs` lines 300-314: `name`
must be present and a string; `duration` must be present
(`.ok_or(ApiError::Json)?`), and its `as_i64` value defaults to 300 when the
field is not an integer (`.unwrap_or(default_duration)`). -/
def parse_track (jtrack : Json) : Except ApiError Track :=
  let default_duration : Int := 300
  match jtrack.get "name" with
  | none => .error .Json
  | some jname =>
    match jname.as_str with
    | none => .error .Json
    | some title =>
      match jtrack.get "duration" with
      | none => .error .Json
      | some jduration => .ok { title := title, duration := jduration.as_i64.getD default_duration }

/-- Model of the collect step
`jtracks.iter().map(parse_track).collect::<Result<Vec<Track>, ApiError>>()`
from `src/lastfmapi.rs` lines 263-266: first error wins. -/
def collect_tracks : List Json → Except ApiError (List Track)
  | [] => .ok []
  | j :: js =>
    match parse_track j with
    | .error e => .error e
    | .ok t =>
      match collect_tracks js with
      | .error e => .error e
      | .ok ts => .ok (t :: ts)

/-- Function `LastfmApi::get_album_tracks` from `src/lastfmapi.rs` lines 243-297,
starting from the decoded JSON body (the HTTP and `response.json()` steps are
in `get_album_tracks` below). The source re-derives `resp.as_object()` /
`.get("album")` for the title and url chains (lines 268-289); since the value
is immutable those lookups repeat here verbatim. -/
def get_album_tracks_body (resp : Json) : Except ApiError Album :=
  match resp.as_object with
  | none => .error .Json
  | some o =>
    match List.lookup "album" o with
    | none => .error .Json
    | some jalbum =>
      if (jalbum.get "tracks").isNone then .error (.Unscrobbled "Empty album")
      else
        match (jalbum.get "tracks").bind (fun jt => jt.get "track") with
        | none => .error .Json
        | some jtrack_val =>
          match jtrack_val.as_array with
          | none => .error .Json
          | some jtracks =>
            match collect_tracks jtracks with
            | .error e => .error e
            | .ok tracks =>
              match (List.lookup "album" o).bind (fun a => a.get "name") with
              | none => .error .Json
              | some jname =>
                match jname.as_str with
                | none => .error .Json
                | some title =>
                  match (List.lookup "album" o).bind (fun a => a.get "url") with
                  | none => .error .Json
                  | some jurl => .ok { title := title, tracks := tracks, url := jurl.as_str }

/-- An HTTP response as seen by the client after `send()` succeeded:
`status_success` is `response.status().is_success()`, and `body_json` is the
result of the `response.json()` decode step — `none` exactly when the body is
not valid JSON (in which case the source's `.unwrap()` panics). -/
structure HttpResponse where
  status_success : Bool
  body_json : Option Json

/-- Function `LastfmApi::get_request_token` from `src/lastfmapi.rs` lines 55-86,
starting from the HTTP response. `none` models the panic of
`response.json().unwrap()` on line 75 when a 2xx body is not valid JSON. -/
def get_request_token (response : HttpResponse) : Option (Except ApiError String) :=
  if response.status_success = false then
    some (.error (.Generic "Unsuccessfull request"))
  else
    match response.body_json with
    | none => none
    | some resp =>
      match (resp.as_object.bind (fun o => List.lookup "token" o)) with
      | none => some (.error .Json)
      | some jtoken =>
        match jtoken.as_str with
        | none => some (.error .Json)
        | some token => some (.ok token)

/-- Function `LastfmApi::get_album_tracks` from `src/lastfmapi.rs` lines 220-298
including the HTTP status check (lines 236-239) and the
`response.json().unwrap()` decode step (line 240, `none` = panic). -/
def get_album_tracks (response : HttpResponse) : Option (Except ApiError Album) :=
  if response.status_success = false then
    some (.error (.Generic "Unsuccessfull request"))
  else
    match response.body_json with
    | none => none
    | some resp => some (get_album_tracks_body resp)

/-- Function `LastfmApi::compute_signature` from `src/lastfmapi.rs` lines 88-101,
parameterised by the `md5` hex digest function (the hash itself is an
external crate; every property claimed of the signature is independent of the
digest). The parameter map is an association list; its keys are collected,
sorted ascending (Rust sorts `&str` byte-wise, which on UTF-8 coincides with
the code-point order of `String.le`), and each key is concatenated with its
value into the buffer, followed by the secret. -/
def signature_input (params : List (String × String)) (secret : String) : String :=
  ((((params.map Prod.fst).mergeSort (fun a b => a ≤ b)).foldl
    (fun buf k => buf ++ k ++ ((List.lookup k params).getD "")) "")) ++ secret

/-- Function `compute_signature`: the digest of `signature_input`. -/
def compute_signature (md5_hex : String → String)
    (params : List (String × String)) (secret : String) : String :=
  md5_hex (signature_input params secret)

/-- Concrete album used to instantiate the timeline claims: durations
180, 200, 220 seconds. -/
def c1_album : Album :=
  { title := "Album", tracks := [⟨"t1", 180⟩, ⟨"t2", 200⟩, ⟨"t3", 220⟩], url := none }

/-- Concrete stand-in for `LastfmApi::scrobble` used to instantiate the batch
claims: the track titled "skip" is ignored by the remote service, the track
titled "bad" hits a transport error, every other track is accepted. -/
def c2_api : String → String → Int → Except ApiError Unit := fun _ track _ =>
  if track = "skip" then .error (.Unscrobbled "1: reason")
  else if track = "bad" then .error (.Generic "http 500")
  else .ok ()

/-- Concrete album whose middle track gets ignored under `c2_api`. -/
def c2_album : Album :=
  { title := "Album", tracks := [⟨"a", 180⟩, ⟨"skip", 200⟩, ⟨"b", 220⟩], url := none }

/-- Concrete parsed scrobble response: `accepted=0, ignored=1` with
`ignoredMessage code="1"` and inner text "reason". -/
def c3_root : XmlElement :=
  .mk "lfm" [] [.mk "scrobbles" [("accepted", "0"), ("ignored", "1")]
    [.mk "scrobble" [] [.mk "ignoredMessage" [("code", "1")] [] (some "reason")] none] none] none

/-- Concrete accepted scrobble response: `accepted=1, ignored=0`. -/
def c3_root_accepted : XmlElement :=
  .mk "lfm" [] [.mk "scrobbles" [("accepted", "1"), ("ignored", "0")] [] none] none

/-- Concrete track entry with no `duration` field at all. -/
def c4_jtrack_missing : Json := .obj [("name", .str "Eden")]

/-- Concrete track entry whose `duration` is present but not an integer
(a JSON string). -/
def c4_jtrack_nonnumeric : Json := .obj [("name", .str "Eden"), ("duration", .str "215")]

/-- Concrete `lookupAlbum` body whose album object has no `tracks` field. -/
def c6_resp : Json :=
  .obj [("album", .obj [("name", .str "A New Stereophonic Sound Spectacular"),
    ("url", .str "https://album")])]

/-- Concrete ignored scrobble response whose `ignoredMessage` element lacks
the `code` attribute (exercises the unguarded `unwrap` on line 208 of
`src/lastfmapi.rs`). -/
def c8_root_nocode : XmlElement :=
  .mk "lfm" [] [.mk "scrobbles" [("accepted", "0"), ("ignored", "1")]
    [.mk "scrobble" [] [.mk "ignoredMessage" [] [] (some "reason")] none] none] none

/-- Concrete `lookupAlbum` body whose `album.tracks.track` array is present
but empty. -/
def c9_resp : Json :=
  .obj [("album", .obj [("name", .str "A"), ("url", .str "https://album"),
    ("tracks", .obj [("track", .arr [])])])]

/-- The album value `get_album_tracks_body` produces from `c9_resp`:
zero tracks. -/
def c9_album : Album := { title := "A", tracks := [], url := some "https://album" }

theorem timeline_times_length (ts : List Track) (cur : Int) :
    (timeline_times ts cur).length = ts.length := by
  induction ts generalizing cur with
  | nil => rfl
  | cons t ts ih => simp [timeline_times, ih]

theorem timeline_times_get (ts : List Track) (cur : Int) (i : Nat)
    (hi : i < (timeline_times ts cur).length) :
    (timeline_times ts cur).get ⟨i, hi⟩ =
      cur + ((ts.take (i + 1)).map Track.duration).sum + (i + 1) * track_gap := by
  induction ts generalizing cur i with
  | nil => simp [timeline_times] at hi
  | cons t ts ih =>
    cases i with
    | zero => simp [timeline_times, track_gap]
    | succ j =>
      have hj : j < (timeline_times ts (cur + t.duration + track_gap)).length := by
        simpa [timeline_times] using hi
      have := ih (cur + t.duration + track_gap) j hj
      simp only [timeline_times, List.get_cons_succ, List.take_succ_cons, List.map_cons,
        List.sum_cons] at this ⊢
      rw [this]
      push_cast
      ring

theorem i16_cast_of_le (x : Nat) (h : x ≤ 32767) : i16_cast x = (x : Int) := by
  unfold i16_cast
  have : (x + 32768) % 65536 = x + 32768 := Nat.mod_eq_of_lt (by omega)
  rw [this]
  push_cast
  ring

/-- C1 (counterexample): with durations `[180, 200, 220]`, reference time
`T = 1000` and offset `0`, the scheduler assigns `[575, 780, 1005]` — track 3
gets `T + 5`, not `T`; tracks 1 and 2 get `T - 425` and `T - 220`, not
`T - 430` and `T - 225`. -/
theorem timeline_reference_time_counterexample :
    plan_times c1_album 1000 0 = some [575, 780, 1005] ∧
    plan_times c1_album 1000 0 ≠ some [570, 775, 1000] := by
  constructor
  · decide
  · decide

/-- C1 (amended): for every album with `1 ≤ n ≤ 32768` tracks (the upper
bound comes from the source's `as i16` cast of `n - 1`), gap 5 seconds,
reference time `now` and offset, the timeline scheduler assigns each track
the instant the 5-second gap *after* it would have elapsed: track `i` gets
`now - offset + gap - (sum of later durations) - (gaps after later tracks)`,
so the last track's timestamp is `now - offset + 5` (the sequence ends one
gap after `now - offset`), not `now - offset`. -/
theorem timeline_ends_gap_after_reference (album : Album) (now offset : Int)
    (h1 : album.tracks ≠ []) (h2 : album.tracks.length ≤ 32768) :
    ∃ times, plan_times album now offset = some times ∧
      times.length = album.tracks.length ∧
      times.getLast? = some (now - offset + track_gap) ∧
      ∀ i, ∀ hi : i < times.length,
        times.get ⟨i, hi⟩ =
          now - offset + track_gap
            - ((album.tracks.drop (i + 1)).map Track.duration).sum
            - ((album.tracks.length - 1 - i : Nat) : Int) * track_gap := by
  obtain ⟨n, hn⟩ : ∃ n, album.tracks.length = n + 1 := by
    cases hl : album.tracks.length with
    | zero => exact absurd (List.length_eq_zero.mp hl) h1
    | succ m => exact ⟨m, rfl⟩
  have hstart : album_start album now offset =
      now - (album.tracks.map Track.duration).sum - (n : Int) * track_gap - offset := by
    unfold album_start
    rw [hn]
    simp only [Nat.add_sub_cancel]
    rw [i16_cast_of_le n (by omega)]
  have hforall : ∀ i, ∀ hi : i <
      (timeline_times album.tracks (album_start album now offset)).length,
      (timeline_times album.tracks (album_start album now offset)).get ⟨i, hi⟩ =
        now - offset + track_gap
          - ((album.tracks.drop (i + 1)).map Track.duration).sum
          - ((album.tracks.length - 1 - i : Nat) : Int) * track_gap := by
    intro i hi
    rw [timeline_times_get, hstart]
    have hi' : i < n + 1 := by
      rw [timeline_times_length, hn] at hi
      exact hi
    have hsum : ((album.tracks.take (i + 1)).map Track.duration).sum
        + ((album.tracks.drop (i + 1)).map Track.duration).sum
        = (album.tracks.map Track.duration).sum := by
      rw [← List.sum_append, ← List.map_append, List.take_append_drop]
    rw [hn]
    simp only [Nat.add_sub_cancel, track_gap]
    generalize hA : ((album.tracks.take (i + 1)).map Track.duration).sum = A at hsum ⊢
    generalize hB : ((album.tracks.drop (i + 1)).map Track.duration).sum = B at hsum ⊢
    generalize hC : (album.tracks.map Track.duration).sum = C at hsum ⊢
    omega
  have hlen : (timeline_times album.tracks (album_start album now offset)).length = n + 1 := by
    rw [timeline_times_length, hn]
  have h0 : n < (timeline_times album.tracks (album_start album now offset)).length := by
    omega
  have hlast : (timeline_times album.tracks (album_start album now offset)).getLast? =
      some (now - offset + track_gap) := by
    have h4 := hforall n h0
    rw [List.get_eq_getElem] at h4
    have hdrop : album.tracks.drop (n + 1) = [] := by
      rw [← hn]
      exact List.drop_length album.tracks
    rw [List.getLast?_eq_getElem?, hlen]
    simp only [Nat.add_sub_cancel]
    rw [List.getElem?_eq_getElem h0, h4, hdrop, hn]
    simp
  exact ⟨timeline_times album.tracks (album_start album now offset),
    by simp [plan_times, hn], by rw [timeline_times_length, hn], hlast, hforall⟩

/-- C1 (witness): the amended timeline theorem instantiated at the concrete
album `[180, 200, 220]`, reference time 1000, offset 0: the last assigned
timestamp is `1000 + 5`. -/
theorem timeline_ends_gap_after_reference_witness :
    (plan_times c1_album 1000 0).bind List.getLast? = some (1000 - 0 + track_gap) := by
  obtain ⟨times, h1, h2, h3, h4⟩ :=
    timeline_ends_gap_after_reference c1_album 1000 0 (by decide) (by decide)
  rw [h1]
  simpa using h3

theorem scrobble_loop_of_no_hard_error
    (api : String → String → Int → Except ApiError Unit) (artist : String) :
    ∀ (ts : List Track) (cur : Int) (b : Bool),
      (∀ o ∈ loop_outcomes api artist ts cur, is_hard_error o = false) →
      scrobble_loop api artist false ts cur b =
        .ok (b || (loop_outcomes api artist ts cur).any is_ignored) := by
  intro ts
  induction ts with
  | nil => intro cur b _; simp [scrobble_loop, loop_outcomes]
  | cons t ts ih =>
    intro cur b h
    have hhead : is_hard_error (api artist t.title (cur + t.duration + track_gap)) = false :=
      h _ (by simp [loop_outcomes])
    have htail : ∀ o ∈ loop_outcomes api artist ts (cur + t.duration + track_gap),
        is_hard_error o = false := by
      intro o ho
      exact h o (by simp [loop_outcomes, ho])
    cases hout : api artist t.title (cur + t.duration + track_gap) with
    | ok u =>
      simp only [scrobble_loop, loop_outcomes, Bool.false_eq_true, if_false, hout,
        List.any_cons, is_ignored]
      rw [ih _ b htail]
      simp
    | error e =>
      cases e with
      | Unscrobbled reason =>
        simp only [scrobble_loop, loop_outcomes, Bool.false_eq_true, if_false, hout,
          List.any_cons, is_ignored]
        rw [ih _ true htail]
        simp
      | Generic msg => rw [hout] at hhead; simp [is_hard_error] at hhead
      | Json => rw [hout] at hhead; simp [is_hard_error] at hhead
      | Parse msg => rw [hout] at hhead; simp [is_hard_error] at hhead

/-- C2: in a non-dry-run album batch, (1) a per-track `Unscrobbled` (ignored)
outcome records the track as unscrobbled and the loop continues with the next
track; (2) any other error (transport `Generic`, `Json`, XML `Parse`) aborts
the batch immediately with that error; (3) when every per-track call succeeds
at the transport/parse level, the batch result is the
"Not all tracks scrobbled" failure if and only if at least one track was
ignored. -/
theorem album_batch_partial_failure
    (api : String → String → Int → Except ApiError Unit) (artist : String) :
    (∀ (t : Track) (ts : List Track) (cur : Int) (b : Bool) (reason : String),
      api artist t.title (cur + t.duration + track_gap) = .error (.Unscrobbled reason) →
      scrobble_loop api artist false (t :: ts) cur b =
        scrobble_loop api artist false ts (cur + t.duration + track_gap) true)
    ∧ (∀ (t : Track) (ts : List Track) (cur : Int) (b : Bool) (e : ApiError),
      is_hard_error (.error e) = true →
      api artist t.title (cur + t.duration + track_gap) = .error e →
      scrobble_loop api artist false (t :: ts) cur b = .error e)
    ∧ (∀ (album : Album) (offset now : Int),
      album.tracks ≠ [] →
      (∀ o ∈ loop_outcomes api artist album.tracks (album_start album now offset),
        is_hard_error o = false) →
      (scrobble_timeline api artist album false offset now =
          some (.error .not_all_scrobbled) ↔
        (loop_outcomes api artist album.tracks (album_start album now offset)).any
          is_ignored = true)) := by
  refine ⟨?_, ?_, ?_⟩
  · intro t ts cur b reason hout
    simp [scrobble_loop, hout]
  · intro t ts cur b e he hout
    cases e with
    | Unscrobbled reason => simp [is_hard_error] at he
    | Generic msg => simp [scrobble_loop, hout]
    | Json => simp [scrobble_loop, hout]
    | Parse msg => simp [scrobble_loop, hout]
  · intro album offset now h1 h2
    obtain ⟨n, hn⟩ : ∃ n, album.tracks.length = n + 1 := by
      cases hl : album.tracks.length with
      | zero => exact absurd (List.length_eq_zero.mp hl) h1
      | succ m => exact ⟨m, rfl⟩
    have hloop := scrobble_loop_of_no_hard_error api artist album.tracks
      (album_start album now offset) false h2
    rw [Bool.false_or] at hloop
    simp only [scrobble_timeline, hn, hloop]
    cases hany : (loop_outcomes api artist album.tracks (album_start album now offset)).any
      is_ignored with
    | true => simp
    | false => simp

/-- C2 (witness): the batch theorem instantiated with the concrete `c2_api`
(track "skip" ignored, track "bad" transport error) and the concrete album
`c2_album` whose middle track is ignored. -/
theorem album_batch_partial_failure_witness :
    (scrobble_loop c2_api "artist" false [⟨"skip", 200⟩, ⟨"b", 220⟩] 0 false =
      scrobble_loop c2_api "artist" false [⟨"b", 220⟩] (0 + 200 + track_gap) true)
    ∧ (scrobble_loop c2_api "artist" false [⟨"bad", 100⟩] 0 false =
      .error (.Generic "http 500"))
    ∧ (scrobble_timeline c2_api "artist" c2_album false 0 1000 =
        some (.error .not_all_scrobbled) ↔ 
      (loop_outcomes c2_api "artist" c2_album.tracks (album_start c2_album 1000 0)).any
        is_ignored = true) := by
  obtain ⟨h1, h2, h3⟩ := album_batch_partial_failure c2_api "artist"
  exact ⟨h1 ⟨"skip", 200⟩ [⟨"b", 220⟩] 0 false "1: reason" rfl,
    h2 ⟨"bad", 100⟩ [] 0 false (.Generic "http 500") rfl rfl,
    h3 c2_album 0 1000 (by decide) (by decide)⟩

/-- C3: for a scrobble response whose `scrobbles` element carries integer
attributes `accepted = a` and `ignored = i`: `a=1, i=0` yields accepted
(`Ok`); `a=0, i=1` yields `Unscrobbled` carrying the `code` attribute and the
inner text of the nested `scrobble/ignoredMessage` element (the text
defaulting to empty when absent, via `getD ""`); any other combination yields
the `Parse "Wrong response structure"` (malformed) error. -/
theorem scrobble_response_classification (root es : XmlElement) (sa si : String) (a i : Int)
    (h1 : root.get_child "scrobbles" = some es)
    (h2 : es.attr "accepted" = some sa) (h3 : parse_i64 sa = some a)
    (h4 : es.attr "ignored" = some si) (h5 : parse_i64 si = some i) :
    (a = 1 ∧ i = 0 → parse_scrobble_response root = some (.ok ()))
    ∧ (∀ (esc em : XmlElement) (code : String),
        a = 0 → i = 1 →
        es.get_child "scrobble" = some esc →
        esc.get_child "ignoredMessage" = some em →
        em.attr "code" = some code →
        parse_scrobble_response root =
          some (.error (.Unscrobbled (code ++ ": " ++ em.text.getD ""))))
    ∧ (¬(a = 1 ∧ i = 0) → ¬(a = 0 ∧ i = 1) →
        parse_scrobble_response root = some (.error (.Parse "Wrong response structure"))) := by
  refine ⟨?_, ?_, ?_⟩
  · rintro ⟨ha, hi⟩
    subst ha hi
    simp [parse_scrobble_response, h1, h2, h3, h4, h5]
  · intro esc em code ha hi hesc hem hcode
    subst ha hi
    simp [parse_scrobble_response, h1, h2, h3, h4, h5, hesc, hem, hcode]
  · intro hn1 hn2
    simp only [parse_scrobble_response, h1, h2, h3, h4, h5]
    rw [if_neg hn1, if_neg hn2]

/-- C3 (witness): the classification applied to the concrete ignored response
(`accepted=0, ignored=1`, `code="1"`, text "reason") and the concrete
accepted response (`accepted=1, ignored=0`). -/
theorem scrobble_response_classification_witness :
    parse_scrobble_response c3_root = some (.error (.Unscrobbled "1: reason"))
    ∧ parse_scrobble_response c3_root_accepted = some (.ok ()) := by
  have hw := scrobble_response_classification c3_root
    (.mk "scrobbles" [("accepted", "0"), ("ignored", "1")]
      [.mk "scrobble" [] [.mk "ignoredMessage" [("code", "1")] [] (some "reason")] none] none)
    "0" "1" 0 1 rfl rfl (by decide) rfl (by decide)
  have ha := scrobble_response_classification c3_root_accepted
    (.mk "scrobbles" [("accepted", "1"), ("ignored", "0")] [] none) "1" "0" 1 0
    rfl rfl (by decide) rfl (by decide)
  refine ⟨?_, ha.1 ⟨rfl, rfl⟩⟩
  exact hw.2.1 (.mk "scrobble" [] [.mk "ignoredMessage" [("code", "1")] [] (some "reason")] none)
    (.mk "ignoredMessage" [("code", "1")] [] (some "reason")) "1" rfl rfl rfl rfl rfl

/-- C4 (counterexample): a track entry with the `duration` field missing
entirely makes `parse_track` fail with the `Json` error — it does not get the
300-second default, refuting the claim that a missing duration is tolerated. -/
theorem parse_track_missing_duration_counterexample :
    parse_track c4_jtrack_missing = .error .Json ∧
    parse_track c4_jtrack_missing ≠ .ok { title := "Eden", duration := 300 } := by
  refine ⟨rfl, ?_⟩
  intro h
  rw [show parse_track c4_jtrack_missing = Except.error ApiError.Json from rfl] at h
  exact Except.noConfusion h

/-- C4 (amended): for every track entry with a valid string `name`, when the
`duration` field is *present but non-numeric* (not an `i64`-range integer)
the parsed track gets the default 300 seconds and the parse does not fail;
but when the `duration` field is *missing* the parse fails with the `Json`
error (so the lookup fails as a whole). -/
theorem parse_track_duration_leniency (jtrack jname : Json) (title : String)
    (hn : jtrack.get "name" = some jname) (hs : jname.as_str = some title) :
    (∀ jd, jtrack.get "duration" = some jd → jd.as_i64 = none →
      parse_track jtrack = .ok { title := title, duration := 300 })
    ∧ (jtrack.get "duration" = none → parse_track jtrack = .error .Json) := by
  constructor
  · intro jd hd hi
    simp [parse_track, hn, hs, hd, hi]
  · intro hd
    simp [parse_track, hn, hs, hd]

/-- C4 (witness): the amended duration policy at concrete track entries — a
string-valued duration "215" yields the 300-second default, a missing
duration yields the `Json` error. -/
theorem parse_track_duration_leniency_witness :
    parse_track c4_jtrack_nonnumeric = .ok { title := "Eden", duration := 300 } ∧
    parse_track c4_jtrack_missing = .error .Json := by
  have h1 := parse_track_duration_leniency c4_jtrack_nonnumeric (.str "Eden") "Eden" rfl rfl
  have h2 := parse_track_duration_leniency c4_jtrack_missing (.str "Eden") "Eden" rfl rfl
  exact ⟨h1.1 (.str "215") rfl rfl, h2.2 rfl⟩

theorem lookup_eq_of_perm {p1 p2 : List (String × String)} (h : p1.Perm p2) :
    (p1.map Prod.fst).Nodup → ∀ k, List.lookup k p1 = List.lookup k p2 := by
  induction h with
  | nil => intro _ k; rfl
  | cons x h' ih =>
    intro hnd k
    obtain ⟨kx, vx⟩ := x
    simp only [List.map_cons, List.nodup_cons] at hnd
    simp only [List.lookup]
    cases hk : k == kx
    · simpa using ih hnd.2 k
    · rfl
  | swap x y l =>
    intro hnd k
    obtain ⟨kx, vx⟩ := x
    obtain ⟨ky, vy⟩ := y
    simp only [List.map_cons, List.nodup_cons, List.mem_cons] at hnd
    have hxy : ky ≠ kx := fun e => hnd.1 (Or.inl e)
    simp only [List.lookup]
    cases hk : k == ky <;> cases hk2 : k == kx <;> simp_all
  | trans h1 h2 ih1 ih2 =>
    intro hnd k
    rw [ih1 hnd k, ih2 ((h1.map Prod.fst).nodup_iff.mp hnd) k]

theorem sorted_keys_eq_of_perm (l1 l2 : List String) (h : l1.Perm l2) :
    l1.mergeSort (fun a b => a ≤ b) = l2.mergeSort (fun a b => a ≤ b) := by
  have htrans : ∀ a b c : String, (fun a b : String => (a ≤ b : Bool)) a b = true →
      (fun a b : String => (a ≤ b : Bool)) b c = true →
      (fun a b : String => (a ≤ b : Bool)) a c = true := by
    intro a b c hab hbc
    simp only [decide_eq_true_eq] at hab hbc ⊢
    exact le_trans hab hbc
  have htotal : ∀ a b : String, ((fun a b : String => (a ≤ b : Bool)) a b ||
      (fun a b : String => (a ≤ b : Bool)) b a) = true := by
    intro a b
    simp only [Bool.or_eq_true, decide_eq_true_eq]
    exact le_total a b
  apply List.eq_of_perm_of_sorted (r := fun a b : String => a ≤ b)
  · exact (List.mergeSort_perm l1 _).trans (h.trans (List.mergeSort_perm l2 _).symm)
  · exact (List.sorted_mergeSort htrans htotal l1).imp (fun hab => by
      simpa using hab)
  · exact (List.sorted_mergeSort htrans htotal l2).imp (fun hab => by
      simpa using hab)

theorem fold_lookup_congr (p1 p2 : List (String × String))
    (hl : ∀ k, List.lookup k p1 = List.lookup k p2) :
    ∀ (ks : List String) (buf : String),
      ks.foldl (fun buf k => buf ++ k ++ ((List.lookup k p1).getD "")) buf =
      ks.foldl (fun buf k => buf ++ k ++ ((List.lookup k p2).getD "")) buf := by
  intro ks
  induction ks with
  | nil => intro buf; rfl
  | cons k ks ih =>
    intro buf
    simp only [List.foldl_cons]
    rw [hl k]
    exact ih _

/-- C5: `compute_signature` is deterministic and independent of the order in
which the parameters are supplied: two parameter maps with the same key/value
pairs (and no duplicate keys) yield the same signature for any digest
function and secret — the buffer is always built over keys sorted ascending,
key immediately followed by value, secret appended, then hashed. -/
theorem compute_signature_key_order_independent (md5_hex : String → String)
    (secret : String) (p1 p2 : List (String × String))
    (hperm : p1.Perm p2) (hnd : (p1.map Prod.fst).Nodup) :
    compute_signature md5_hex p1 secret = compute_signature md5_hex p2 secret := by
  unfold compute_signature signature_input
  have hkeys : (p1.map Prod.fst).mergeSort (fun a b => a ≤ b) =
      (p2.map Prod.fst).mergeSort (fun a b => a ≤ b) :=
    sorted_keys_eq_of_perm _ _ (hperm.map Prod.fst)
  rw [hkeys, fold_lookup_congr p1 p2 (lookup_eq_of_perm hperm hnd)]

/-- C5 (witness): the map written `b=2, a=1` signs identically to the map
written `a=1, b=2`, for an arbitrary concrete digest function. -/
theorem compute_signature_key_order_independent_witness :
    compute_signature (fun s => s) [("b", "2"), ("a", "1")] "secret" =
    compute_signature (fun s => s) [("a", "1"), ("b", "2")] "secret" :=
  compute_signature_key_order_independent (fun s => s) "secret"
    [("b", "2"), ("a", "1")] [("a", "1"), ("b", "2")]
    (List.Perm.swap ("a", "1") ("b", "2") []) (by decide)

/-- C6: a `lookupAlbum` body whose album object has no `tracks` field yields
the distinct empty-album error (`Unscrobbled "Empty album"`), which differs
from the generic malformed-JSON error `Json` (and from every `Parse` error)
used for other unexpected shapes. -/
theorem empty_album_error_distinct (resp : Json) (o : List (String × Json)) (jalbum : Json)
    (h1 : resp.as_object = some o) (h2 : List.lookup "album" o = some jalbum)
    (h3 : jalbum.get "tracks" = none) :
    get_album_tracks_body resp = .error (.Unscrobbled "Empty album")
    ∧ ApiError.Unscrobbled "Empty album" ≠ ApiError.Json
    ∧ ∀ s, ApiError.Unscrobbled "Empty album" ≠ ApiError.Parse s := by
  refine ⟨?_, by simp, fun s => by simp⟩
  simp [get_album_tracks_body, h1, h2, h3]

/-- C6 (witness): the concrete body `c6_resp` (album with `name` and `url`
but no `tracks`) produces exactly the empty-album error. -/
theorem empty_album_error_distinct_witness :
    get_album_tracks_body c6_resp = .error (.Unscrobbled "Empty album")
    ∧ ApiError.Unscrobbled "Empty album" ≠ ApiError.Json
    ∧ ApiError.Unscrobbled "Empty album" ≠ ApiError.Parse "Wrong response structure" := by
  obtain ⟨h1, h2, h3⟩ := empty_album_error_distinct c6_resp
    [("album", .obj [("name", .str "A New Stereophonic Sound Spectacular"),
      ("url", .str "https://album")])]
    (.obj [("name", .str "A New Stereophonic Sound Spectacular"),
      ("url", .str "https://album")]) rfl rfl rfl
  exact ⟨h1, h2, h3 "Wrong response structure"⟩

/-- C7: the single-track scrobble path turns an `Unscrobbled` (ignored)
outcome into overall success — the only error it swallows, every other error
propagating unchanged — whereas the same ignored outcome inside an album
batch (no transport/parse failures) makes the whole batch fail with
`not_all_scrobbled`. -/
theorem single_track_ignored_leniency :
    (∀ reason, scrobble_track_result (.error (.Unscrobbled reason)) = .ok ())
    ∧ (∀ e, is_hard_error (.error e) = true → scrobble_track_result (.error e) = .error e)
    ∧ (∀ (api : String → String → Int → Except ApiError Unit) (artist : String)
        (album : Album) (offset now : Int),
        album.tracks ≠ [] →
        (∀ o ∈ loop_outcomes api artist album.tracks (album_start album now offset),
          is_hard_error o = false) →
        (loop_outcomes api artist album.tracks (album_start album now offset)).any
          is_ignored = true →
        scrobble_timeline api artist album false offset now =
          some (.error .not_all_scrobbled)) := by
  refine ⟨fun reason => rfl, ?_, ?_⟩
  · intro e he
    cases e with
    | Unscrobbled reason => simp [is_hard_error] at he
    | Generic msg => rfl
    | Json => rfl
    | Parse msg => rfl
  · intro api artist album offset now h1 h2 hany
    obtain ⟨n, hn⟩ : ∃ n, album.tracks.length = n + 1 := by
      cases hl : album.tracks.length with
      | zero => exact absurd (List.length_eq_zero.mp hl) h1
      | succ m => exact ⟨m, rfl⟩
    have hloop := scrobble_loop_of_no_hard_error api artist album.tracks
      (album_start album now offset) false h2
    rw [Bool.false_or, hany] at hloop
    simp [scrobble_timeline, hn, hloop]

/-- C7 (witness): the leniency asymmetry at concrete inputs — a single-track
ignored outcome maps to `Ok`, a transport error propagates, and the ignored
middle track of `c2_album` fails the whole batch. -/
theorem single_track_ignored_leniency_witness :
    scrobble_track_result (.error (.Unscrobbled "1: reason")) = .ok ()
    ∧ scrobble_track_result (.error (.Generic "http 500")) = .error (.Generic "http 500")
    ∧ scrobble_timeline c2_api "artist" c2_album false 0 1000 =
        some (.error .not_all_scrobbled) := by
  obtain ⟨h1, h2, h3⟩ := single_track_ignored_leniency
  exact ⟨h1 "1: reason", h2 (.Generic "http 500") rfl,
    h3 c2_api "artist" c2_album 0 1000 (by decide) (by decide) (by decide)⟩

/-- C8: the access to the `code` attribute in the ignored branch of
`parse_scrobble_response` is an unguarded `unwrap`: on a response with
`accepted=0, ignored=1` whose `scrobble/ignoredMessage` element lacks the
`code` attribute the parser panics (`none`), while the same response with the
attribute present returns normally. -/
theorem ignored_code_unwrap_not_total :
    parse_scrobble_response c8_root_nocode = none
    ∧ parse_scrobble_response c3_root = some (.error (.Unscrobbled "1: reason")) := by
  constructor
  · rfl
  · rfl

/-- C9: a `lookupAlbum` body whose `album.tracks.track` array is present but
empty parses successfully into an album with zero tracks (the empty-album
error fires only when `tracks` is absent), and feeding any zero-track album
to `scrobble_timeline` reaches the `tracks.len() - 1` underflow (modelled as
the panic `none`) — even in dry-run mode. -/
theorem empty_tracklist_reaches_underflow :
    (get_album_tracks_body c9_resp = .ok c9_album ∧ c9_album.tracks = [])
    ∧ (∀ (api : String → String → Int → Except ApiError Unit) (artist : String)
        (album : Album) (dryrun : Bool) (offset now : Int),
        album.tracks = [] →
        scrobble_timeline api artist album dryrun offset now = none) := by
  refine ⟨⟨rfl, rfl⟩, ?_⟩
  intro api artist album dryrun offset now h
  simp [scrobble_timeline, h]

/-- C9 (witness): the underflow conclusion applied to the concrete zero-track
album produced from `c9_resp`. -/
theorem empty_tracklist_reaches_underflow_witness :
    scrobble_timeline (fun _ _ _ => .ok ()) "artist" c9_album true 0 1000 = none :=
  empty_tracklist_reaches_underflow.2 (fun _ _ _ => .ok ()) "artist" c9_album true 0 1000 rfl

theorem get_request_token_isSome (response : HttpResponse) (j : Json)
    (h : response.body_json = some j) : (get_request_token response).isSome := by
  unfold get_request_token
  cases hs : response.status_success with
  | false => simp
  | true =>
    simp only [hs, h]
    cases hj : (Json.as_object j).bind (fun o => List.lookup "token" o) with
    | none => simp
    | some jtoken => cases hjs : jtoken.as_str <;> simp [hjs]

theorem get_album_tracks_isSome (response : HttpResponse) (j : Json)
    (h : response.body_json = some j) : (get_album_tracks response).isSome := by
  unfold get_album_tracks
  cases hs : response.status_success with
  | false => simp
  | true => simp [hs, h]

/-- C10: the `response.json().unwrap()` decode step makes `get_request_token`
and `get_album_tracks` partial: on an HTTP-success response whose body is not
valid JSON both panic (`none`) instead of returning any error, and both are
total (return `some` result) exactly under the precondition that the 2xx body
decodes as JSON. -/
theorem json_decode_unwrap_not_total :
    (get_request_token { status_success := true, body_json := none } = none
      ∧ get_album_tracks { status_success := true, body_json := none } = none)
    ∧ (∀ (response : HttpResponse) (j : Json), response.body_json = some j →
        (get_request_token response).isSome ∧ (get_album_tracks response).isSome) := by
  refine ⟨⟨rfl, rfl⟩, ?_⟩
  intro response j h
  exact ⟨get_request_token_isSome response j h, get_album_tracks_isSome response j h⟩

/-- C10 (witness): the totality part applied to a concrete 2xx response with
a decodable body. -/
theorem json_decode_unwrap_not_total_witness :
    (get_request_token { status_success := true, body_json := some .null }).isSome
    ∧ (get_album_tracks { status_success := true, body_json := some .null }).isSome :=
  json_decode_unwrap_not_total.2 { status_success := true, body_json := some .null } .null rfl
